import Mathlib

/-!
Verification development for the Saathi mental-wellness pipeline.

The repository ships the React frontend (`api.js`, `storage.js`, `auth.js`,
`firebase.js`, `App.jsx`) and a README describing the Django backend
(pipeline orchestrator, crisis detector, memory store, screening scorer).
The backend sources themselves are not in the tree, so the backend
components are modelled from the specification; the frontend services are
embedded directly from their JavaScript sources.
-/

namespace Saathi

/-- Modelled from the spec: the five risk levels of a `RiskAssessment`
(§3 data model); the backend code defining them is not in the source tree. -/
inductive RiskLevel where
  | none
  | low
  | moderate
  | high
  | critical
deriving DecidableEq, Repr

/-- Numeric rank of a risk level, used for the ordering `none < low <
moderate < high < critical`. -/
def RiskLevel.toNat : RiskLevel → Nat
  | .none => 0
  | .low => 1
  | .moderate => 2
  | .high => 3
  | .critical => 4

instance : LE RiskLevel := ⟨fun a b => a.toNat ≤ b.toNat⟩

instance (a b : RiskLevel) : Decidable (a ≤ b) :=
  inferInstanceAs (Decidable (a.toNat ≤ b.toNat))

/-- The larger of two risk levels (fail toward safety, spec §4.3). -/
def RiskLevel.max (a b : RiskLevel) : RiskLevel :=
  if a.toNat ≤ b.toNat then b else a

/-- Modelled from the spec: the enumerated screening instruments (§3);
the scoring backend is not in the source tree. -/
inductive ScreeningInstrument where
  | PHQ9
  | GAD7
  | GHQ12
deriving DecidableEq, Repr

/-- Item count per instrument: PHQ-9 has 9 items, GAD-7 has 7, GHQ-12
has 12 (spec §4.1, README assessment section). -/
def ScreeningInstrument.item_count : ScreeningInstrument → Nat
  | .PHQ9 => 9
  | .GAD7 => 7
  | .GHQ12 => 12

/-- Per-item value domain: every instrument uses raw item values in
{0,1,2,3} (spec §4.1). -/
def ScreeningInstrument.inDomain : ScreeningInstrument → Nat → Bool :=
  fun _ v => v ≤ 3

/-- Severity bands named by the spec (§4.1). -/
inductive SeverityBand where
  | Minimal
  | Mild
  | Moderate
  | ModeratelySevere
  | Severe
deriving DecidableEq, Repr

/-- PHQ-9 severity table: Minimal 0–4, Mild 5–9, Moderate 10–14,
Moderately Severe 15–19, Severe 20–27 (spec §4.1). -/
def phq9Band (t : Nat) : SeverityBand :=
  if t ≤ 4 then .Minimal
  else if t ≤ 9 then .Mild
  else if t ≤ 14 then .Moderate
  else if t ≤ 19 then .ModeratelySevere
  else .Severe

/-- GAD-7 severity table: Minimal 0–4, Mild 5–9, Moderate 10–14,
Severe 15–21 (spec §4.1). -/
def gad7Band (t : Nat) : SeverityBand :=
  if t ≤ 4 then .Minimal
  else if t ≤ 9 then .Mild
  else if t ≤ 14 then .Moderate
  else .Severe

/-- GHQ-12 fixed 0-0-1-1 per-item transform: item values 0 and 1 map
to 0, values 2 and 3 map to 1 (spec §4.1). -/
def ghqItemTransform (v : Nat) : Nat :=
  if v ≤ 1 then 0 else 1

/-- Total score of a validated response vector: PHQ-9 and GAD-7 sum the
raw values, GHQ-12 sums the 0-0-1-1-transformed values (spec §4.1). -/
def ScreeningInstrument.total : ScreeningInstrument → List Nat → Nat
  | .GHQ12, rs => (rs.map ghqItemTransform).sum
  | .PHQ9, rs => rs.sum
  | .GAD7, rs => rs.sum

/-- Severity band assigned per instrument; GHQ-12 has no named bands,
only the numeric score (spec §4.1). -/
def ScreeningInstrument.band : ScreeningInstrument → Nat → Option SeverityBand
  | .PHQ9, t => some (phq9Band t)
  | .GAD7, t => some (gad7Band t)
  | .GHQ12, _ => Option.none

/-- Modelled from the spec: the `ScreeningResult` record (§3). -/
structure ScreeningResult where
  instrument : ScreeningInstrument
  owner_id : String
  raw_responses : List Nat
  total_score : Nat
  severity_band : Option SeverityBand
  created_at : Nat
deriving DecidableEq, Repr

/-- Modelled from the spec: the validation failure of the screening
scorer (§4.1, §7 error taxonomy). -/
inductive ScoringValidationError where
  | wrongLength (expected got : Nat)
  | outOfDomain (value : Nat)
deriving DecidableEq, Repr

/-- Modelled from the spec: `score(instrument, responses)` (§4.1).
Validates the length against the item count of the instrument and every
value against the domain of the instrument, failing closed with
`ScoringValidationError` (no partial result); otherwise computes the
total and the severity band. -/
def score (inst : ScreeningInstrument) (owner : String) (now : Nat)
    (responses : List Nat) : Except ScoringValidationError ScreeningResult :=
  if responses.length ≠ inst.item_count then
    .error (.wrongLength inst.item_count responses.length)
  else
    match responses.find? (fun v => !(inst.inDomain v)) with
    | some v => .error (.outOfDomain v)
    | Option.none =>
      let t := inst.total responses
      .ok { instrument := inst, owner_id := owner, raw_responses := responses,
            total_score := t, severity_band := inst.band t, created_at := now }

/-- The PHQ-9 band table, spelled interval by interval. -/
theorem phq9Band_cases (t : Nat) :
    (t ≤ 4 → phq9Band t = .Minimal) ∧
    (5 ≤ t → t ≤ 9 → phq9Band t = .Mild) ∧
    (10 ≤ t → t ≤ 14 → phq9Band t = .Moderate) ∧
    (15 ≤ t → t ≤ 19 → phq9Band t = .ModeratelySevere) ∧
    (20 ≤ t → phq9Band t = .Severe) := by
  unfold phq9Band
  refine ⟨?_, ?_, ?_, ?_, ?_⟩ <;> intros <;> repeat' split
  all_goals first | rfl | omega

/-- C3: for every PHQ-9 response vector of exactly 9 values each in {0..3},
`score` succeeds with a total equal to the sum of the values, the total lies
in [0,27], and the severity band follows the table Minimal 0–4, Mild 5–9,
Moderate 10–14, Moderately Severe 15–19, Severe 20–27 (so boundary totals
4/5, 9/10, 14/15, 19/20 land in the correct adjacent bands). -/
theorem phq9_score_correct (owner : String) (now : Nat) (rs : List Nat)
    (hlen : rs.length = 9) (hdom : ∀ v ∈ rs, v ≤ 3) :
    ∃ r : ScreeningResult,
      score .PHQ9 owner now rs = .ok r ∧
      r.total_score = rs.sum ∧
      r.total_score ≤ 27 ∧
      (r.total_score ≤ 4 → r.severity_band = some .Minimal) ∧
      (5 ≤ r.total_score → r.total_score ≤ 9 → r.severity_band = some .Mild) ∧
      (10 ≤ r.total_score → r.total_score ≤ 14 →
        r.severity_band = some .Moderate) ∧
      (15 ≤ r.total_score → r.total_score ≤ 19 →
        r.severity_band = some .ModeratelySevere) ∧
      (20 ≤ r.total_score → r.severity_band = some .Severe) := by
  have hfind : rs.find? (fun v => !(ScreeningInstrument.PHQ9.inDomain v))
      = Option.none := by
    rw [List.find?_eq_none]
    intro v hv
    simpa [ScreeningInstrument.inDomain] using hdom v hv
  have hsum : rs.sum ≤ 27 := by
    have := List.sum_le_card_nsmul rs 3 hdom
    simpa [hlen] using this
  obtain ⟨h1, h2, h3, h4, h5⟩ := phq9Band_cases rs.sum
  refine ⟨⟨.PHQ9, owner, rs, rs.sum, some (phq9Band rs.sum), now⟩,
    ?_, rfl, hsum, fun h => by rw [h1 h], fun ha hb => by rw [h2 ha hb],
    fun ha hb => by rw [h3 ha hb], fun ha hb => by rw [h4 ha hb],
    fun h => by rw [h5 h]⟩
  simp [score, hlen, hfind, ScreeningInstrument.item_count,
    ScreeningInstrument.total, ScreeningInstrument.band]

/-- Witness for C3 at the boundary vector summing to 5 (band Mild). -/
theorem phq9_score_correct_witness :
    ∃ r : ScreeningResult,
      score .PHQ9 "o" 0 [1, 1, 1, 1, 1, 0, 0, 0, 0] = .ok r ∧
      r.total_score = [1, 1, 1, 1, 1, 0, 0, 0, 0].sum ∧
      r.total_score ≤ 27 ∧
      (r.total_score ≤ 4 → r.severity_band = some .Minimal) ∧
      (5 ≤ r.total_score → r.total_score ≤ 9 → r.severity_band = some .Mild) ∧
      (10 ≤ r.total_score → r.total_score ≤ 14 →
        r.severity_band = some .Moderate) ∧
      (15 ≤ r.total_score → r.total_score ≤ 19 →
        r.severity_band = some .ModeratelySevere) ∧
      (20 ≤ r.total_score → r.severity_band = some .Severe) :=
  phq9_score_correct "o" 0 [1, 1, 1, 1, 1, 0, 0, 0, 0] (by decide) (by decide)

/-- C4: for every instrument, a response vector of the wrong length or
containing an out-of-domain value makes `score` fail with a
`ScoringValidationError`, and no `ScreeningResult` is produced (no
partial record; out-of-domain values are never clamped). -/
theorem score_validation_fail (inst : ScreeningInstrument) (owner : String)
    (now : Nat) (rs : List Nat)
    (h : rs.length ≠ inst.item_count ∨ ∃ v ∈ rs, ¬ v ≤ 3) :
    (∃ e, score inst owner now rs = .error e) ∧
      ∀ r, score inst owner now rs ≠ .ok r := by
  have herr : ∃ e, score inst owner now rs = .error e := by
    rcases h with hlen | ⟨v, hv, hdom⟩
    · exact ⟨.wrongLength inst.item_count rs.length, by simp [score, hlen]⟩
    · by_cases hlen : rs.length = inst.item_count
      · have : (rs.find? (fun v => !(inst.inDomain v))).isSome := by
          rw [List.find?_isSome]
          exact ⟨v, hv, by simpa [ScreeningInstrument.inDomain] using hdom⟩
        rcases Option.isSome_iff_exists.mp this with ⟨w, hw⟩
        exact ⟨.outOfDomain w, by simp [score, hlen, hw]⟩
      · exact ⟨.wrongLength inst.item_count rs.length, by simp [score, hlen]⟩
  refine ⟨herr, fun r hr => ?_⟩
  rcases herr with ⟨e, he⟩
  rw [hr] at he
  exact Except.noConfusion he

/-- Witness for C4: PHQ-9 with an item value of 4 is rejected. -/
theorem score_validation_fail_witness :
    (∃ e, score .PHQ9 "o" 0 [4, 0, 0, 0, 0, 0, 0, 0, 0] = .error e) ∧
      ∀ r, score .PHQ9 "o" 0 [4, 0, 0, 0, 0, 0, 0, 0, 0] ≠ .ok r :=
  score_validation_fail .PHQ9 "o" 0 [4, 0, 0, 0, 0, 0, 0, 0, 0]
    (Or.inr ⟨4, by decide, by decide⟩)

/-- C7: for every GHQ-12 response vector of exactly 12 values each in
{0..3}, `score` maps each item through the 0-0-1-1 transform (0,1 ↦ 0 and
2,3 ↦ 1) before summing, the total lies in [0,12], and no named severity
band is assigned. -/
theorem ghq12_score_correct (owner : String) (now : Nat) (rs : List Nat)
    (hlen : rs.length = 12) (hdom : ∀ v ∈ rs, v ≤ 3) :
    ∃ r : ScreeningResult,
      score .GHQ12 owner now rs = .ok r ∧
      r.total_score = (rs.map ghqItemTransform).sum ∧
      r.total_score ≤ 12 ∧
      r.severity_band = Option.none ∧
      ghqItemTransform 0 = 0 ∧ ghqItemTransform 1 = 0 ∧
      ghqItemTransform 2 = 1 ∧ ghqItemTransform 3 = 1 := by
  have hfind : rs.find? (fun v => !(ScreeningInstrument.GHQ12.inDomain v))
      = Option.none := by
    rw [List.find?_eq_none]
    intro v hv
    simpa [ScreeningInstrument.inDomain] using hdom v hv
  have hsum : (rs.map ghqItemTransform).sum ≤ 12 := by
    have hb : ∀ x ∈ rs.map ghqItemTransform, x ≤ 1 := by
      intro x hx
      rcases List.mem_map.mp hx with ⟨v, _, rfl⟩
      simp only [ghqItemTransform]
      split <;> omega
    have := List.sum_le_card_nsmul (rs.map ghqItemTransform) 1 hb
    simpa [hlen] using this
  refine ⟨⟨.GHQ12, owner, rs, (rs.map ghqItemTransform).sum, Option.none, now⟩,
    ?_, rfl, hsum, rfl, rfl, rfl, rfl, rfl⟩
  simp [score, hlen, hfind, ScreeningInstrument.item_count,
    ScreeningInstrument.total, ScreeningInstrument.band]

/-- Witness for C7 at a concrete vector exercising all four item values. -/
theorem ghq12_score_correct_witness :
    ∃ r : ScreeningResult,
      score .GHQ12 "o" 0 [0, 1, 2, 3, 0, 1, 2, 3, 0, 1, 2, 3] = .ok r ∧
      r.total_score =
        ([0, 1, 2, 3, 0, 1, 2, 3, 0, 1, 2, 3].map ghqItemTransform).sum ∧
      r.total_score ≤ 12 ∧
      r.severity_band = Option.none ∧
      ghqItemTransform 0 = 0 ∧ ghqItemTransform 1 = 0 ∧
      ghqItemTransform 2 = 1 ∧ ghqItemTransform 3 = 1 :=
  ghq12_score_correct "o" 0 [0, 1, 2, 3, 0, 1, 2, 3, 0, 1, 2, 3]
    (by decide) (by decide)

/-! ### Memory store (spec §4.4) -/

/-- Source tag of a memory chunk: conversation turn or ingested document. -/
inductive ChunkSource where
  | conversation
  | document
deriving DecidableEq, Repr

/-- Modelled from the spec: `MemoryChunk` (§3); the embedding is a
fixed-length numeric vector, modelled over `Rat`. -/
structure MemoryChunk where
  id : Nat
  owner_id : String
  source : ChunkSource
  text : String
  embedding : List Rat
  created_at : Nat
deriving DecidableEq, Repr

/-- The external embedding function: `Option.none` models the embedding
service being unavailable (spec §4.4 failure mode). -/
def EmbedFn : Type := String → Option (List Rat)

/-- Modelled from the spec: the retrieval-backend failure (§4.4, §7). -/
inductive RetrievalBackendError where
  | embeddingUnavailable
deriving DecidableEq, Repr

/-- Split a character list into bounded-size chunks (passage splitting of
`ingest`, spec §4.4; the exact passage size is a configuration input). -/
def chunkChars (n : Nat) : List Char → List (List Char)
  | [] => []
  | c :: cs => (c :: cs.take n) :: chunkChars n (cs.drop n)
termination_by l => l.length
decreasing_by simp only [List.length_drop, List.length_cons]; omega

/-- Split text into bounded-size passages (spec §4.4). -/
def splitPassages (passageLen : Nat) (text : String) : List String :=
  (chunkChars passageLen text.data).map List.asString

/-- Embed every passage, all-or-nothing: if the embedding service fails on
any passage the whole call fails (spec §7: ingestion is all-or-nothing). -/
def embedAll (embed : EmbedFn) : List String → Option (List (List Rat))
  | [] => some []
  | p :: ps =>
    match embed p, embedAll embed ps with
    | some v, some vs => some (v :: vs)
    | _, _ => Option.none

/-- Modelled from the spec: `ingest(owner_id, text, source)` (§4.4): splits
the text into bounded-size passages, embeds each via the external embedding
function, and stores each passage as a `MemoryChunk`; fails with
`RetrievalBackendError` when the embedding service is unavailable. -/
def ingest (embed : EmbedFn) (store : List MemoryChunk) (owner text : String)
    (src : ChunkSource) (passageLen now : Nat) :
    Except RetrievalBackendError (List MemoryChunk) :=
  let passages := splitPassages passageLen text
  match embedAll embed passages with
  | Option.none => .error .embeddingUnavailable
  | some vecs =>
    .ok (store ++ (passages.zip vecs).enum.map (fun iv =>
      { id := store.length + iv.fst, owner_id := owner, source := src,
        text := iv.snd.fst, embedding := iv.snd.snd, created_at := now }))

/-- Similarity of two embedding vectors (inner product). -/
def similarity (a b : List Rat) : Rat :=
  (List.zipWith (fun x y => x * y) a b).sum

/-- Ranking used by `retrieve`: higher similarity first, ties broken by
most-recent `created_at` (spec §4.4). -/
def chunkRank (q : List Rat) (c₁ c₂ : MemoryChunk) : Bool :=
  if similarity q c₁.embedding = similarity q c₂.embedding then
    decide (c₂.created_at ≤ c₁.created_at)
  else
    decide (similarity q c₂.embedding ≤ similarity q c₁.embedding)

/-- Modelled from the spec: `retrieve(owner_id, query_text, k)` (§4.4):
embeds the query, keeps only the chunks of the requesting owner, ranks by
similarity (ties by recency) and returns the first `k`; degrades to the
empty sequence when the embedding service is unavailable. -/
def retrieve (embed : EmbedFn) (store : List MemoryChunk)
    (owner query : String) (k : Nat) : List MemoryChunk :=
  match embed query with
  | Option.none => []
  | some qv =>
    (((store.filter (fun c => c.owner_id == owner)).mergeSort
      (chunkRank qv)).take k)

/-- C5: every chunk returned by `retrieve(owner_id, query, k)` belongs to
the requesting owner, for any embedding function, store contents, query
and k; a chunk of a different owner is never returned. -/
theorem retrieve_owner_scoped (embed : EmbedFn) (store : List MemoryChunk)
    (owner query : String) (k : Nat) (c : MemoryChunk)
    (hc : c ∈ retrieve embed store owner query k) : c.owner_id = owner := by
  unfold retrieve at hc
  cases hq : embed query with
  | none => rw [hq] at hc; simp at hc
  | some qv =>
    rw [hq] at hc
    have h1 := List.mem_of_mem_take hc
    have h2 := List.mem_mergeSort.mp h1
    have h3 := (List.mem_filter.mp h2).2
    exact eq_of_beq h3

/-- A concrete chunk owned by `"alice"`, for the C5 witness. -/
def demoAliceChunk : MemoryChunk :=
  ⟨0, "alice", .conversation, "hello", [(1 : Rat)], 0⟩

/-- A concrete chunk owned by `"bob"`, for the C5 witness. -/
def demoBobChunk : MemoryChunk :=
  ⟨1, "bob", .document, "notes", [(1 : Rat)], 1⟩

/-- A two-owner store, for the C5 witness. -/
def demoStore : List MemoryChunk := [demoAliceChunk, demoBobChunk]

/-- A trivially available embedding function, for the C5 witness. -/
def demoEmbed : EmbedFn := fun _ => some [(1 : Rat)]

/-- Witness for C5: a two-owner store, queried for owner `"alice"`. -/
theorem retrieve_owner_scoped_witness : demoAliceChunk.owner_id = "alice" :=
  retrieve_owner_scoped demoEmbed demoStore "alice" "q" 2 demoAliceChunk (by
    unfold retrieve demoEmbed
    show demoAliceChunk ∈
      ((demoStore.filter (fun c => c.owner_id == "alice")).mergeSort
        (chunkRank [(1 : Rat)])).take 2
    have hf : demoStore.filter (fun c => c.owner_id == "alice")
        = [demoAliceChunk] := by decide
    rw [hf, List.mergeSort_singleton]
    simp)

/-! ### Crisis detector and pipeline orchestrator (spec §4.2, §4.3, §4.6) -/

/-- Message roles (spec §3). -/
inductive Role where
  | user
  | assistant
  | system
deriving DecidableEq, Repr

/-- Modelled from the spec: `Message` (§3). -/
structure Message where
  id : Nat
  session_id : String
  role : Role
  text : String
  created_at : Nat
  risk_tags : List String
deriving DecidableEq, Repr

/-- Modelled from the spec: `CrisisEvent` (§3), created only when the
risk level is high or critical. -/
structure CrisisEvent where
  session_id : String
  triggered_at : Nat
  risk_level : RiskLevel
  message_snapshot : String
  resources_offered : List (String × String)
deriving DecidableEq, Repr

/-- Modelled from the spec: `ConversationSession` (§3). `crisis_cleared`
records the explicit clearing of the last crisis event by an external
collaborator (counselor follow-up, §4.3). -/
structure ConversationSession where
  id : String
  owner_id : String
  log : List Message
  consent_flags : List String
  last_crisis_event : Option CrisisEvent
  crisis_cleared : Bool
deriving DecidableEq, Repr

/-- A session has an open critical crisis when its last crisis event is
critical and has not been explicitly cleared (spec §4.3). -/
def hasOpenCriticalCrisis (s : ConversationSession) : Bool :=
  match s.last_crisis_event with
  | some e => decide (e.risk_level = .critical) && !s.crisis_cleared
  | Option.none => false

/-- Character-list prefix test, used for substring matching. -/
def isPref : List Char → List Char → Bool
  | [], _ => true
  | _ :: _, [] => false
  | p :: ps, c :: cs => p == c && isPref ps cs

/-- Does `p` occur as a contiguous segment of `l`? -/
def containsSeg (p : List Char) : List Char → Bool
  | [] => p.isEmpty
  | c :: cs => isPref p (c :: cs) || containsSeg p cs

/-- Does `t` contain the pattern `pat` as a substring? -/
def textContains (t pat : String) : Bool :=
  containsSeg pat.data t.data

/-- Lexical risk classification: the highest level among the curated risk
indicators matched in the given texts (spec §4.3; the indicator set itself
is a policy configuration input, §9). -/
def lexicalLevel (indicators : List (String × RiskLevel))
    (texts : List String) : RiskLevel :=
  indicators.foldl
    (fun acc ind =>
      if texts.any (fun t => textContains t ind.fst) then
        RiskLevel.max acc ind.snd
      else acc)
    RiskLevel.none

/-- Source of a risk assessment (spec §3). -/
inductive RiskSource where
  | message_text
  | screening_result
deriving DecidableEq, Repr

/-- Modelled from the spec: `RiskAssessment` (§3). -/
structure RiskAssessment where
  level : RiskLevel
  reasons : List String
  source : RiskSource
deriving DecidableEq, Repr

/-- Modelled from the spec: configuration of the Crisis Detector. The
indicator set, the level contributed by the screening-risk flag, and the
history window are policy parameters supplied as configuration (§9). -/
structure DetectorConfig where
  indicators : List (String × RiskLevel)
  screening_risk_level : RiskLevel
  history_window : Nat
deriving Repr

/-- Modelled from the spec: `assess(message, recent_history,
screening_risk_flag)` (§4.3): combines the lexical match over the current
message and a bounded window of recent history with the screening-risk
flag (the higher of the two wins), then applies the monotonic-escalation
floor: with an open uncleared critical crisis event the level starts at
minimum `moderate`. -/
def assess (cfg : DetectorConfig) (session : ConversationSession)
    (msg : Message) (screening_risk : Bool) : RiskAssessment :=
  let texts := msg.text ::
    ((session.log.reverse.take cfg.history_window).map Message.text)
  let lex := lexicalLevel cfg.indicators texts
  let scr := if screening_risk then cfg.screening_risk_level
             else RiskLevel.none
  let base := RiskLevel.max lex scr
  let floored := if hasOpenCriticalCrisis session then
                   RiskLevel.max base .moderate
                 else base
  { level := floored,
    reasons := (cfg.indicators.filter
      (fun ind => texts.any (fun t => textContains t ind.fst))).map Prod.fst,
    source := if lex.toNat < scr.toNat then .screening_result
              else .message_text }

/-- Moderation outcome (spec §4.2). -/
inductive Moderation where
  | allow
  | block (reason : String)
deriving DecidableEq, Repr

/-- Modelled from the spec: `moderate(message_text)` (§4.2): a policy
check against disallowed content categories, independent of clinical
risk; the category list is a policy configuration input. -/
def moderate (policy : List String) (text : String) : Moderation :=
  match policy.find? (fun p => textContains text p) with
  | some p => .block p
  | Option.none => .allow

/-- States of the orchestrator state machine (spec §4.6). -/
inductive PState where
  | Start
  | Moderated
  | CrisisChecked
  | MemoryRetrieved
  | Generated
  | Done
  | CrisisShortCircuit
deriving DecidableEq, Repr

/-- Chat response shape (spec §6): normal responses carry no crisis
resources; crisis responses carry the fixed resource list. -/
structure ChatResponse where
  reply_text : String
  risk_level : RiskLevel
  used_memory : Bool
  crisis_resources : List (String × String)
  session_id : String
deriving DecidableEq, Repr

/-- The fixed crisis resource list (README support section). -/
def crisisResources : List (String × String) :=
  [("Crisis Text Line", "Text HOME to 741741"),
   ("National Suicide Prevention Lifeline", "988"),
   ("Campus Counseling Services", "Contact your university")]

/-- The fixed crisis resource script (spec §6 crisis response). -/
def crisisScript : String :=
  "You are not alone. Please reach out to a crisis counselor right now."

/-- The templated safe-refusal reply for blocked messages (spec §4.2). -/
def refusalReply : String :=
  "I cannot help with that request."

/-- The deterministic fallback apology used on generation timeout or
backend error (spec §4.5). -/
def fallbackReply : String :=
  "I am sorry, I am having trouble responding right now."

/-- The fixed crisis-resource payload returned on a crisis short-circuit
(spec §6 crisis response). -/
def crisisPayload (level : RiskLevel) (sid : String) : ChatResponse :=
  { reply_text := crisisScript, risk_level := level, used_memory := false,
    crisis_resources := crisisResources, session_id := sid }

/-- The external language model: `Option.none` models a timeout or
backend error (spec §4.5). -/
def GenFn : Type := String → Option String

/-- Prompt composition (spec §4.5): system/persona policy, capped recent
history, retrieved memory texts most-relevant-first, then the message. -/
def buildPrompt (persona : String) (history : List Message)
    (memory : List MemoryChunk) (msgText : String) : String :=
  persona
    ++ (history.map Message.text).foldl (fun a t => a ++ "\n" ++ t) ""
    ++ (memory.map MemoryChunk.text).foldl (fun a t => a ++ "\n" ++ t) ""
    ++ "\n" ++ msgText

/-- Modelled from the spec: pipeline configuration; policy lists, persona
and window sizes are configuration inputs (§9). -/
structure PipelineConfig where
  detector : DetectorConfig
  policy : List String
  persona : String
  history_window : Nat
  retrieve_k : Nat
  passage_len : Nat
deriving Repr

/-- Result of one orchestrator run, instrumented with the terminal state,
the visited state trace, whether the Memory Store and the Response
Generator were called, and the emitted crisis event. -/
structure PipelineOutcome where
  final : PState
  trace : List PState
  response : ChatResponse
  crisis_event : Option CrisisEvent
  called_memory : Bool
  called_generator : Bool
  session : ConversationSession
deriving DecidableEq, Repr

/-- Modelled from the spec: the Pipeline Orchestrator state machine
(§4.6): Start → Moderated (blocked messages still proceed to the crisis
check) → CrisisChecked; on a high or critical assessment the run ends in
the `CrisisShortCircuit` terminal, emits a `CrisisEvent` and returns the
fixed crisis payload without touching the Memory Store or the Response
Generator; on a block it returns the templated refusal; otherwise it
retrieves memory, generates (falling back on generation failure) and ends
in `Done`, appending the assistant message to the session log. -/
def runPipeline (cfg : PipelineConfig) (embed : EmbedFn) (gen : GenFn)
    (store : List MemoryChunk) (session : ConversationSession)
    (msg : Message) (screening_risk : Bool) (now : Nat) : PipelineOutcome :=
  let mod := moderate cfg.policy msg.text
  let ra := assess cfg.detector session msg screening_risk
  if RiskLevel.high ≤ ra.level then
    let ev : CrisisEvent :=
      { session_id := session.id, triggered_at := now,
        risk_level := ra.level, message_snapshot := msg.text,
        resources_offered := crisisResources }
    { final := .CrisisShortCircuit,
      trace := [.Start, .Moderated, .CrisisChecked, .CrisisShortCircuit],
      response := crisisPayload ra.level session.id,
      crisis_event := some ev,
      called_memory := false, called_generator := false,
      session := { session with
                    last_crisis_event := some ev
                    crisis_cleared := false } }
  else
    match mod with
    | .block _ =>
      { final := .Done,
        trace := [.Start, .Moderated, .CrisisChecked, .Done],
        response := { reply_text := refusalReply, risk_level := ra.level,
                      used_memory := false, crisis_resources := [],
                      session_id := session.id },
        crisis_event := Option.none,
        called_memory := false, called_generator := false,
        session := session }
    | .allow =>
      let mem := retrieve embed store session.owner_id msg.text cfg.retrieve_k
      let prompt := buildPrompt cfg.persona
        ((session.log.reverse.take cfg.history_window).reverse) mem msg.text
      let reply := match gen prompt with
        | some t => t
        | Option.none => fallbackReply
      let amsg : Message :=
        { id := session.log.length, session_id := session.id,
          role := .assistant, text := reply, created_at := now,
          risk_tags := [] }
      { final := .Done,
        trace := [.Start, .Moderated, .CrisisChecked, .MemoryRetrieved,
                  .Generated, .Done],
        response := { reply_text := reply, risk_level := ra.level,
                      used_memory := !mem.isEmpty, crisis_resources := [],
                      session_id := session.id },
        crisis_event := Option.none,
        called_memory := true, called_generator := true,
        session := { session with log := session.log ++ [amsg] } }

/-- The second argument is a lower bound of `RiskLevel.max`. -/
theorem riskLe_max_right (a b : RiskLevel) : b ≤ RiskLevel.max a b := by
  cases a <;> cases b <;> decide

/-- C2: in a session with an open critical crisis event that has not been
explicitly cleared, every assessment returns a level of at least
`moderate`, whatever the message, history window, indicator configuration
or screening flag. -/
theorem open_critical_assess_floor (cfg : DetectorConfig)
    (session : ConversationSession) (msg : Message) (screening_risk : Bool)
    (h : hasOpenCriticalCrisis session = true) :
    RiskLevel.moderate ≤ (assess cfg session msg screening_risk).level := by
  simp only [assess, h, if_true]
  exact riskLe_max_right _ _

/-- A concrete critical crisis event, for the C2 witness. -/
def demoCrisisEvent : CrisisEvent :=
  ⟨"s1", 0, .critical, "earlier message", crisisResources⟩

/-- A session carrying an open (uncleared) critical crisis event. -/
def demoCrisisSession : ConversationSession :=
  ⟨"s1", "alice", [], [], some demoCrisisEvent, false⟩

/-- A neutral, calm user message. -/
def demoNeutralMsg : Message :=
  ⟨0, "s1", .user, "I feel okay today", 1, []⟩

/-- A concrete detector configuration with two lexical indicators. -/
def demoDetectorConfig : DetectorConfig :=
  ⟨[("end my life", .critical), ("hurt myself", .high)], .moderate, 5⟩

/-- Witness for C2: the neutral message in the crisis session still
assesses to at least `moderate`. -/
theorem open_critical_assess_floor_witness :
    RiskLevel.moderate ≤
      (assess demoDetectorConfig demoCrisisSession demoNeutralMsg
        false).level :=
  open_critical_assess_floor demoDetectorConfig demoCrisisSession
    demoNeutralMsg false (by decide)

/-- C1: whenever the crisis detector assesses an incoming message at
`high` or `critical`, the orchestrator run terminates in
`CrisisShortCircuit`, never calls the Response Generator or Memory
retrieval, emits a `CrisisEvent`, and returns the fixed crisis-resource
payload, whose `risk_level` is `high` or `critical`. -/
theorem crisis_short_circuit (cfg : PipelineConfig) (embed : EmbedFn)
    (gen : GenFn) (store : List MemoryChunk)
    (session : ConversationSession) (msg : Message)
    (screening_risk : Bool) (now : Nat)
    (h : (assess cfg.detector session msg screening_risk).level = .high ∨
         (assess cfg.detector session msg screening_risk).level = .critical) :
    (runPipeline cfg embed gen store session msg screening_risk now).final
        = .CrisisShortCircuit ∧
    (runPipeline cfg embed gen store session msg screening_risk
        now).called_generator = false ∧
    (runPipeline cfg embed gen store session msg screening_risk
        now).called_memory = false ∧
    (runPipeline cfg embed gen store session msg screening_risk
        now).crisis_event.isSome = true ∧
    (runPipeline cfg embed gen store session msg screening_risk
        now).response =
      crisisPayload (assess cfg.detector session msg screening_risk).level
        session.id ∧
    ((runPipeline cfg embed gen store session msg screening_risk
        now).response.risk_level = .high ∨
     (runPipeline cfg embed gen store session msg screening_risk
        now).response.risk_level = .critical) := by
  have hcond : RiskLevel.high ≤
      (assess cfg.detector session msg screening_risk).level := by
    rcases h with h | h <;> rw [h] <;> decide
  simp only [runPipeline, if_pos hcond, crisisPayload]
  simpa using h

/-- A concrete message containing a recognized crisis indicator. -/
def demoCrisisMsg : Message :=
  ⟨0, "s1", .user, "I want to end my life", 1, []⟩

/-- A session with no prior crisis event. -/
def demoCleanSession : ConversationSession :=
  ⟨"s1", "alice", [], [], Option.none, false⟩

/-- A concrete pipeline configuration. -/
def demoPipelineConfig : PipelineConfig :=
  ⟨demoDetectorConfig, ["how to build a bomb"],
    "You are Saathi, a supportive companion.", 5, 3, 200⟩

/-- A concrete always-available language-model backend. -/
def demoGen : GenFn := fun _ => some "Thanks for sharing."

/-- Witness for C1 on a message containing the indicator phrase. -/
theorem crisis_short_circuit_witness :
    (runPipeline demoPipelineConfig demoEmbed demoGen demoStore
        demoCleanSession demoCrisisMsg false 1).final
        = .CrisisShortCircuit ∧
    (runPipeline demoPipelineConfig demoEmbed demoGen demoStore
        demoCleanSession demoCrisisMsg false 1).called_generator = false ∧
    (runPipeline demoPipelineConfig demoEmbed demoGen demoStore
        demoCleanSession demoCrisisMsg false 1).called_memory = false ∧
    (runPipeline demoPipelineConfig demoEmbed demoGen demoStore
        demoCleanSession demoCrisisMsg false 1).crisis_event.isSome = true ∧
    (runPipeline demoPipelineConfig demoEmbed demoGen demoStore
        demoCleanSession demoCrisisMsg false 1).response =
      crisisPayload (assess demoPipelineConfig.detector demoCleanSession
        demoCrisisMsg false).level demoCleanSession.id ∧
    ((runPipeline demoPipelineConfig demoEmbed demoGen demoStore
        demoCleanSession demoCrisisMsg false 1).response.risk_level
        = .high ∨
     (runPipeline demoPipelineConfig demoEmbed demoGen demoStore
        demoCleanSession demoCrisisMsg false 1).response.risk_level
        = .critical) :=
  crisis_short_circuit demoPipelineConfig demoEmbed demoGen demoStore
    demoCleanSession demoCrisisMsg false 1 (Or.inr (by decide))

/-- The unavailable embedding service (spec §4.4 failure mode). -/
def embedFail : EmbedFn := fun _ => Option.none

/-- A nonempty text always splits into at least one passage. -/
theorem splitPassages_ne_nil (n : Nat) (t : String) (h : t ≠ "") :
    splitPassages n t ≠ [] := by
  cases t with
  | mk d =>
    cases d with
    | nil => exact absurd rfl h
    | cons c cs => simp [splitPassages, chunkChars]

/-- C6: when the embedding service is unavailable, `ingest` fails with
`RetrievalBackendError`, `retrieve` degrades to the empty sequence, and a
non-crisis, non-blocked pipeline run still terminates in `Done` with a
normal response whose `used_memory` is `false`. -/
theorem embedding_unavailable_degrades :
    (∀ (store : List MemoryChunk) (owner text : String) (src : ChunkSource)
        (plen now : Nat), text ≠ "" →
      ingest embedFail store owner text src plen now
        = .error .embeddingUnavailable) ∧
    (∀ (store : List MemoryChunk) (owner query : String) (k : Nat),
      retrieve embedFail store owner query k = []) ∧
    (∀ (cfg : PipelineConfig) (gen : GenFn) (store : List MemoryChunk)
        (session : ConversationSession) (msg : Message)
        (screening_risk : Bool) (now : Nat),
      moderate cfg.policy msg.text = .allow →
      ¬ RiskLevel.high ≤
          (assess cfg.detector session msg screening_risk).level →
      (runPipeline cfg embedFail gen store session msg screening_risk
          now).final = .Done ∧
      (runPipeline cfg embedFail gen store session msg screening_risk
          now).response.used_memory = false) := by
  refine ⟨?_, ?_, ?_⟩
  · intro store owner text src plen now htext
    cases hps : splitPassages plen text with
    | nil => exact absurd hps (splitPassages_ne_nil plen text htext)
    | cons p ps => simp [ingest, hps, embedAll, embedFail]
  · intro store owner query k
    rfl
  · intro cfg gen store session msg screening_risk now hmod hrisk
    simp [runPipeline, if_neg hrisk, hmod, retrieve, embedFail]

/-- Witness for C6 at concrete inputs. -/
theorem embedding_unavailable_degrades_witness :
    ingest embedFail [] "alice" "hello" .document 200 0
        = .error .embeddingUnavailable ∧
    retrieve embedFail [] "alice" "q" 3 = [] ∧
    ((runPipeline demoPipelineConfig embedFail demoGen []
        demoCleanSession demoNeutralMsg false 1).final = .Done ∧
     (runPipeline demoPipelineConfig embedFail demoGen []
        demoCleanSession demoNeutralMsg false 1).response.used_memory
        = false) :=
  ⟨embedding_unavailable_degrades.1 [] "alice" "hello" .document 200 0
      (by decide),
   embedding_unavailable_degrades.2.1 [] "alice" "q" 3,
   embedding_unavailable_degrades.2.2 demoPipelineConfig demoGen []
      demoCleanSession demoNeutralMsg false 1 (by decide) (by decide)⟩

/-! ### Frontend chat service (`frontend/src/services/api.js`) -/

/-- One entry of the chat history sequence (`{role, text}` per the §6
contract). -/
structure ChatHistoryEntry where
  role : String
  text : String
deriving DecidableEq, Repr

/-- The JSON body posted by `sendChat` (api.js lines 78–84): `uid`,
`message`, `history`, `context` and the freshly constructed
`session_id`. -/
structure ChatRequestBody where
  uid : String
  message : String
  history : List ChatHistoryEntry
  context : List (String × String)
  session_id : String
deriving DecidableEq, Repr

/-- Field names of the body posted by `sendChat`, in source order
(api.js lines 78–84). -/
def chatRequestFields : List String :=
  ["uid", "message", "history", "context", "session_id"]

/-- The field names the spec §6 chat request contract prescribes:
`{owner_id, message_text, history, session_id}`. Stated from the words
of the spec, for comparison with `chatRequestFields` taken from the source. -/
def specChatRequestFields : List String :=
  ["owner_id", "message_text", "history", "session_id"]

/-- The session id `sendChat` constructs: the JavaScript template literal
`session_<uid>_<Date.now()>`, with the millisecond clock reading printed
in decimal. -/
def mkSessionId (uid : String) (nowMs : Nat) : String :=
  "session_" ++ uid ++ "_" ++ Nat.repr nowMs

/-- The body `sendChat(uid, message, history, context)` posts to
`/chat/`; `nowMs` is the `Date.now()` reading at call time. The caller
cannot pass a session id: it is always rebuilt from `uid` and the
clock. -/
def sendChatBody (uid message : String) (history : List ChatHistoryEntry)
    (context : List (String × String)) (nowMs : Nat) : ChatRequestBody :=
  { uid := uid, message := message, history := history, context := context,
    session_id := mkSessionId uid nowMs }

/-- C8 counterexample: the field list `sendChat` actually posts differs
from the `{owner_id, message_text, history, session_id}` list prescribed
by the §6 chat contract. -/
theorem chat_fields_differ_from_spec :
    chatRequestFields ≠ specChatRequestFields := by decide

/-- C8 (amended): every request `sendChat` posts to the chat endpoint
consists of the fields `uid`, `message`, `history`, `context` and
`session_id` — with `uid` and `message` in place of the fields
`owner_id` and `message_text` of the contract, plus an extra `context` field — and the
`session_id` is rebuilt from `uid` and the call-time clock. -/
theorem sendChat_request_shape :
    chatRequestFields = ["uid", "message", "history", "context",
      "session_id"] ∧
    ∀ (uid message : String) (history : List ChatHistoryEntry)
      (context : List (String × String)) (nowMs : Nat),
      (sendChatBody uid message history context nowMs).uid = uid ∧
      (sendChatBody uid message history context nowMs).message = message ∧
      (sendChatBody uid message history context nowMs).history = history ∧
      (sendChatBody uid message history context nowMs).context = context ∧
      (sendChatBody uid message history context nowMs).session_id
        = mkSessionId uid nowMs :=
  ⟨rfl, fun _ _ _ _ _ => ⟨rfl, rfl, rfl, rfl, rfl⟩⟩

/-- Decimal value of a digit character. -/
def digitVal (c : Char) : Nat := c.toNat - 48

/-- Value of a digit string, folded left with accumulator `a`. -/
def decValFrom (a : Nat) (l : List Char) : Nat :=
  l.foldl (fun acc c => 10 * acc + digitVal c) a

/-- Below 10, `Nat.digitChar` is inverted by `digitVal`. -/
theorem digitVal_digitChar : ∀ n < 10, digitVal (Nat.digitChar n) = n := by
  decide

/-- The function `Nat.toDigitsCore` only prepends to its accumulator. -/
theorem toDigitsCore_append (f : Nat) :
    ∀ (n : Nat) (ds : List Char),
      Nat.toDigitsCore 10 f n ds = Nat.toDigitsCore 10 f n [] ++ ds := by
  induction f with
  | zero => intro n ds; simp [Nat.toDigitsCore]
  | succ f ih =>
    intro n ds
    simp only [Nat.toDigitsCore]
    by_cases h0 : n / 10 = 0
    · rw [if_pos h0, if_pos h0]
      simp
    · rw [if_neg h0, if_neg h0, ih (n / 10) (Nat.digitChar (n % 10) :: ds),
        ih (n / 10) [Nat.digitChar (n % 10)], List.append_assoc]
      simp

/-- Reading back the digits produced by `Nat.toDigitsCore` recovers the
number (with the accumulator shifted by the digit count). -/
theorem decValFrom_toDigitsCore :
    ∀ (f n a : Nat), n < f →
      decValFrom a (Nat.toDigitsCore 10 f n []) =
        a * 10 ^ (Nat.toDigitsCore 10 f n []).length + n := by
  intro f
  induction f with
  | zero => intro n a h; omega
  | succ f ih =>
    intro n a h
    simp only [Nat.toDigitsCore]
    by_cases h0 : n / 10 = 0
    · rw [if_pos h0]
      have hn : n < 10 := by
        rcases Nat.lt_or_ge n 10 with h10 | h10
        · exact h10
        · exact absurd h0 (by
            have : 1 ≤ n / 10 := Nat.one_le_div_iff (by norm_num) |>.mpr h10
            omega)
      have hd := digitVal_digitChar (n % 10) (Nat.mod_lt n (by norm_num))
      simp only [decValFrom, List.foldl, List.length_cons,
        List.length_nil, hd]
      have : n % 10 = n := Nat.mod_eq_of_lt hn
      simp [this]
      ring
    · rw [if_neg h0]
      rw [toDigitsCore_append]
      have hge : 10 ≤ n := by
        rcases Nat.lt_or_ge n 10 with h10 | h10
        · exact absurd (Nat.div_eq_of_lt h10) h0
        · exact h10
      have hq : n / 10 < f := by
        have h1 : n / 10 < n := Nat.div_lt_self (by omega) (by norm_num)
        omega
      have hd := digitVal_digitChar (n % 10) (Nat.mod_lt n (by omega))
      simp only [decValFrom, List.foldl_append, List.foldl, hd,
        List.length_append, List.length_cons, List.length_nil]
      rw [show List.foldl (fun acc c => 10 * acc + digitVal c) a
            (Nat.toDigitsCore 10 f (n / 10) []) =
          decValFrom a (Nat.toDigitsCore 10 f (n / 10) []) from rfl,
        ih (n / 10) a hq]
      have hdm : 10 * (n / 10) + n % 10 = n := Nat.div_add_mod n 10
      rw [pow_succ]
      have : 10 * (a * 10 ^ (Nat.toDigitsCore 10 f (n / 10) []).length
          + n / 10) + n % 10
          = a * (10 ^ (Nat.toDigitsCore 10 f (n / 10) []).length * 10)
            + (10 * (n / 10) + n % 10) := by ring
      rw [this, hdm]

/-- Decimal printing `Nat.repr` (the meaning of interpolating
`Date.now()` in the template literal) is injective. -/
theorem nat_repr_injective : Function.Injective Nat.repr := by
  intro m n h
  have hdig : Nat.toDigits 10 m = Nat.toDigits 10 n := by
    have hdata := congrArg String.data h
    simpa [Nat.repr, List.asString] using hdata
  have hm := decValFrom_toDigitsCore (m + 1) m 0 (Nat.lt_succ_self m)
  have hn := decValFrom_toDigitsCore (n + 1) n 0 (Nat.lt_succ_self n)
  simp only [Nat.toDigits] at hdig
  rw [hdig] at hm
  simp only [Nat.zero_mul, Nat.zero_add] at hm hn
  omega

/-- Appending to a fixed string on the left is cancellable. -/
theorem string_append_left_cancel {a b c : String} (h : a ++ b = a ++ c) :
    b = c := by
  have hd := congrArg String.data h
  simp only [String.data_append] at hd
  have := List.append_cancel_left hd
  cases b
  cases c
  exact congrArg String.mk this

/-- C9: `sendChat` always constructs the session id as
`session_<uid>_<Date.now()>` from its `uid` parameter and the clock — the
caller cannot supply one — and two calls at different clock readings never
share a session id, even for the same `uid`. -/
theorem sendChat_session_id_fresh :
    (∀ (uid message : String) (history : List ChatHistoryEntry)
        (context : List (String × String)) (nowMs : Nat),
      (sendChatBody uid message history context nowMs).session_id
        = "session_" ++ uid ++ "_" ++ Nat.repr nowMs) ∧
    (∀ (uid m₁ m₂ : String) (h₁ h₂ : List ChatHistoryEntry)
        (c₁ c₂ : List (String × String)) (t₁ t₂ : Nat), t₁ ≠ t₂ →
      (sendChatBody uid m₁ h₁ c₁ t₁).session_id
        ≠ (sendChatBody uid m₂ h₂ c₂ t₂).session_id) := by
  refine ⟨fun _ _ _ _ _ => rfl, ?_⟩
  intro uid m₁ m₂ h₁ h₂ c₁ c₂ t₁ t₂ hne heq
  apply hne
  apply nat_repr_injective
  exact string_append_left_cancel
    (a := ("session_" ++ uid) ++ "_")
    (by simpa [mkSessionId, sendChatBody, String.append_assoc] using heq)

/-- Witness for C9: two calls one millisecond apart get distinct session
ids. -/
theorem sendChat_session_id_fresh_witness :
    (sendChatBody "u7" "hi" [] [] 1000).session_id
      ≠ (sendChatBody "u7" "hello" [] [] 1001).session_id :=
  sendChat_session_id_fresh.2 "u7" "hi" "hello" [] [] [] [] 1000 1001
    (by decide)

/-! ### Frontend storage service (`storage.js`, src/unnamed/part_001) -/

/-- A JavaScript `File`: name, size and MIME type. -/
structure JsFile where
  name : String
  size : Nat
  type : String
deriving DecidableEq, Repr

/-- A JavaScript `Blob`: size and MIME type (possibly empty). -/
structure JsBlob where
  size : Nat
  type : String
deriving DecidableEq, Repr

/-- An `UploadTaskSnapshot.ref`, carrying the full storage path. -/
structure SnapshotRef where
  fullPath : String
deriving DecidableEq, Repr

/-- The external Firebase Storage calls awaited inside the `try` blocks
of `storage.js`; each either returns a value or throws with a message,
modelled as `Except String`. `uuid` models `uuidv4()` and `nowMs` models
`Date.now()`. -/
structure StorageBackend where
  getStorage : Except String Unit
  uploadBytes : String → Except String SnapshotRef
  getDownloadURL : String → Except String String
  deleteObject : String → Except String Unit
  uuid : String
  nowMs : Nat

/-- The result object returned by the storage operations; fields absent
from a branch of the JavaScript object literal are `Option.none`. -/
structure StorageResult where
  success : Bool
  downloadURL : Option String
  path : Option String
  filename : Option String
  originalName : Option String
  size : Option Nat
  type : Option String
  message : Option String
  error : Option String
deriving DecidableEq, Repr

/-- The failure object the `catch` blocks return: `success: false` with
the message of the thrown error. -/
def storageFailure (e : String) : StorageResult :=
  { success := false, downloadURL := Option.none, path := Option.none,
    filename := Option.none, originalName := Option.none,
    size := Option.none, type := Option.none, message := Option.none,
    error := some e }

/-- Body of the `try` block of `uploadFile` (storage.js lines 12–38):
derive the extension from the file name, build a unique path (optionally
scoped by `uid`), upload, then fetch the download URL. -/
def uploadFileAttempt (env : StorageBackend) (file : JsFile)
    (folder : String) (uid : Option String) : Except String StorageResult := do
  let _ ← env.getStorage
  let fileExtension := (file.name.splitOn ".").getLastD ""
  let uniqueFileName := env.uuid ++ "." ++ fileExtension
  let path := match uid with
    | some u => folder ++ "/" ++ u ++ "/" ++ uniqueFileName
    | Option.none => folder ++ "/" ++ uniqueFileName
  let snapshot ← env.uploadBytes path
  let downloadURL ← env.getDownloadURL snapshot.fullPath
  pure { success := true, downloadURL := some downloadURL,
         path := some snapshot.fullPath, filename := some uniqueFileName,
         originalName := some file.name, size := some file.size,
         type := some file.type, message := Option.none,
         error := Option.none }

/-- Operation `uploadFile(file, folder, uid)` (storage.js lines 12–48): the `try`
body, with every thrown error caught and turned into a `success: false`
result object. -/
def uploadFile (env : StorageBackend) (file : JsFile) (folder : String)
    (uid : Option String) : StorageResult :=
  match uploadFileAttempt env file folder uid with
  | .ok r => r
  | .error e => storageFailure e

/-- Body of the `try` block of `uploadAudio` (storage.js lines 53–75):
a timestamped `.wav` filename under `audio/<uid>/`. -/
def uploadAudioAttempt (env : StorageBackend) (audioBlob : JsBlob)
    (uid : String) : Except String StorageResult := do
  let _ ← env.getStorage
  let uniqueFileName := "audio_" ++ Nat.repr env.nowMs ++ ".wav"
  let path := "audio/" ++ uid ++ "/" ++ uniqueFileName
  let snapshot ← env.uploadBytes path
  let downloadURL ← env.getDownloadURL snapshot.fullPath
  pure { success := true, downloadURL := some downloadURL,
         path := some snapshot.fullPath, filename := some uniqueFileName,
         originalName := Option.none, size := some audioBlob.size,
         type := some (if audioBlob.type = "" then "audio/wav"
                       else audioBlob.type),
         message := Option.none, error := Option.none }

/-- Operation `uploadAudio(audioBlob, uid)` (storage.js lines 53–85), with the
`catch` block. -/
def uploadAudio (env : StorageBackend) (audioBlob : JsBlob)
    (uid : String) : StorageResult :=
  match uploadAudioAttempt env audioBlob uid with
  | .ok r => r
  | .error e => storageFailure e

/-- Body of the `try` block of `deleteFile` (storage.js lines 90–100). -/
def deleteFileAttempt (env : StorageBackend) (path : String) :
    Except String StorageResult := do
  let _ ← env.getStorage
  let _ ← env.deleteObject path
  pure { success := true, downloadURL := Option.none, path := Option.none,
         filename := Option.none, originalName := Option.none,
         size := Option.none, type := Option.none,
         message := some "File deleted successfully",
         error := Option.none }

/-- Operation `deleteFile(path)` (storage.js lines 90–109), with the `catch`
block. -/
def deleteFile (env : StorageBackend) (path : String) : StorageResult :=
  match deleteFileAttempt env path with
  | .ok r => r
  | .error e => storageFailure e

/-- Any successful run of the try body of `uploadFile` returns the
`success: true` object with no error field. -/
theorem uploadFileAttempt_ok (env : StorageBackend) (file : JsFile)
    (folder : String) (uid : Option String) (r : StorageResult)
    (h : uploadFileAttempt env file folder uid = .ok r) :
    r.success = true ∧ r.error = Option.none := by
  unfold uploadFileAttempt at h
  simp only [Bind.bind, Except.bind, Pure.pure, Except.pure] at h
  split at h
  · exact Except.noConfusion h
  · split at h
    · exact Except.noConfusion h
    · split at h
      · exact Except.noConfusion h
      · cases h
        exact ⟨rfl, rfl⟩

/-- Any successful run of the try body of `uploadAudio` returns the
`success: true` object with no error field. -/
theorem uploadAudioAttempt_ok (env : StorageBackend) (audioBlob : JsBlob)
    (uid : String) (r : StorageResult)
    (h : uploadAudioAttempt env audioBlob uid = .ok r) :
    r.success = true ∧ r.error = Option.none := by
  unfold uploadAudioAttempt at h
  simp only [Bind.bind, Except.bind, Pure.pure, Except.pure] at h
  split at h
  · exact Except.noConfusion h
  · split at h
    · exact Except.noConfusion h
    · split at h
      · exact Except.noConfusion h
      · cases h
        exact ⟨rfl, rfl⟩

/-- Any successful run of the try body of `deleteFile` returns the
`success: true` object with no error field. -/
theorem deleteFileAttempt_ok (env : StorageBackend) (path : String)
    (r : StorageResult) (h : deleteFileAttempt env path = .ok r) :
    r.success = true ∧ r.error = Option.none := by
  unfold deleteFileAttempt at h
  simp only [Bind.bind, Except.bind, Pure.pure, Except.pure] at h
  split at h
  · exact Except.noConfusion h
  · split at h
    · exact Except.noConfusion h
    · cases h
      exact ⟨rfl, rfl⟩

/-- C10: `uploadFile`, `uploadAudio` and `deleteFile` are total functions
into result objects (no exception reaches the caller): for every backend
behaviour each returns an object whose `success` field is a boolean, and
on any internal failure the result is `success = false` carrying the
thrown error message, never a propagated exception. -/
theorem storage_ops_never_throw :
    (∀ (env : StorageBackend) (file : JsFile) (folder : String)
        (uid : Option String),
      ((uploadFile env file folder uid).success = true ∧
        (uploadFile env file folder uid).error = Option.none) ∨
      ((uploadFile env file folder uid).success = false ∧
        ∃ m, (uploadFile env file folder uid).error = some m)) ∧
    (∀ (env : StorageBackend) (audioBlob : JsBlob) (uid : String),
      ((uploadAudio env audioBlob uid).success = true ∧
        (uploadAudio env audioBlob uid).error = Option.none) ∨
      ((uploadAudio env audioBlob uid).success = false ∧
        ∃ m, (uploadAudio env audioBlob uid).error = some m)) ∧
    (∀ (env : StorageBackend) (path : String),
      ((deleteFile env path).success = true ∧
        (deleteFile env path).error = Option.none) ∨
      ((deleteFile env path).success = false ∧
        ∃ m, (deleteFile env path).error = some m)) := by
  refine ⟨?_, ?_, ?_⟩
  · intro env file folder uid
    unfold uploadFile
    split
    · exact Or.inl (uploadFileAttempt_ok env file folder uid _ (by assumption))
    · exact Or.inr ⟨rfl, _, rfl⟩
  · intro env audioBlob uid
    unfold uploadAudio
    split
    · exact Or.inl (uploadAudioAttempt_ok env audioBlob uid _ (by assumption))
    · exact Or.inr ⟨rfl, _, rfl⟩
  · intro env path
    unfold deleteFile
    split
    · exact Or.inl (deleteFileAttempt_ok env path _ (by assumption))
    · exact Or.inr ⟨rfl, _, rfl⟩

end Saathi
